import Mathlib

/-!
# Shallow embedding of the uc3m_travel hotel-management system

This file embeds, in Lean, the Python code of
`src/main/python/uc3m_travel/hotel_manager.py` together with the
attribute validators under `src/main/python/uc3m_travel/attributes/`.

Conventions of the embedding:

* Python strings become `String`; per-character regex matching becomes
  explicit, executable predicates over `List Char` (the regexes involved use
  only literal characters, character classes and fixed repetition counts, so
  each one unfolds into a finite shape check).  Python's `\d`, `\s` and
  `[a-zA-Z]` classes are modelled by their ASCII meaning.
* Raised `HotelManagementException`s become `Except String` errors carrying
  the exact message string of the source.
* The three JSON store files (and the guest-arrival input file) become a
  `FileData` value: `missing` (the file does not exist), `malformed`
  (present but not valid JSON) or `valid` (the parsed payload).
* Machine-level concerns (file handles, encodings) are outside the model.
-/

deriving instance DecidableEq for Except

/-! ## Character classes used by the regexes -/

/-- ASCII hexadecimal digit, the class `[a-fA-F0-9]`. -/
def isHexChar (c : Char) : Bool :=
  c.isDigit || ('a' ≤ c && c ≤ 'f') || ('A' ≤ c && c ≤ 'F')

/-- ASCII whitespace, the Python regex class `\s` restricted to ASCII
(space, tab, newline, carriage return, vertical tab, form feed). -/
def isPySpace (c : Char) : Bool :=
  c = ' ' || c = '\t' || c = '\n' || c = '\r' ||
  c = Char.ofNat 11 || c = Char.ofNat 12

/-- Numeric value of a decimal digit character (`int(d)` on one character). -/
def digitVal (c : Char) : Nat := c.toNat - 48

/-- Value of a string of decimal digit characters (Python `int` on an
all-digit string). -/
def digitsToNat (cs : List Char) : Nat :=
  cs.foldl (fun a c => 10 * a + digitVal c) 0

/-- Strip leading and trailing whitespace from a character list (the
stripping `int(s)` performs on its argument). -/
def pyStrip (cs : List Char) : List Char :=
  ((cs.dropWhile isPySpace).reverse.dropWhile isPySpace).reverse

/-- Model of Python `int(s)` on a string: optional surrounding whitespace,
optional sign, then a non-empty run of decimal digits.  (Underscore digit
separators, accepted by CPython, are not modelled; no caller of the
embedding uses them.) -/
def pyInt (s : String) : Option Int :=
  match pyStrip s.data with
  | '+' :: ds =>
      if ds ≠ [] ∧ ds.all Char.isDigit then some (digitsToNat ds) else none
  | '-' :: ds =>
      if ds ≠ [] ∧ ds.all Char.isDigit then some (-(digitsToNat ds : Int)) else none
  | ds =>
      if ds ≠ [] ∧ ds.all Char.isDigit then some (digitsToNat ds) else none

/-! ## Luhn checksum (`ValidateParameters.validatecreditcard`) -/

/-- `digits_of` from the source: the list of decimal digits of a numeric
string, in order. -/
def digits_of (s : String) : List Nat := s.data.map digitVal

/-- Python extended slice `[start::-2]` after a reversal: every other
element of a list, starting with the first. -/
def everyOther : List Nat → List Nat
  | [] => []
  | [a] => [a]
  | a :: _ :: t => a :: everyOther t

/-- Digit-sum worker with explicit fuel (structural recursion, so concrete
values reduce in the kernel); `fuel = n` always suffices since every step
divides by 10. -/
def natDigitSumAux : Nat → Nat → Nat
  | 0, _ => 0
  | fuel + 1, n => if n < 10 then n else natDigitSumAux fuel (n / 10) + n % 10

/-- Sum of the decimal digits of a natural number (`sum(digits_of(n))`). -/
def natDigitSum (n : Nat) : Nat := natDigitSumAux (n + 1) n

/-- The checksum computed by `validatecreditcard`: the digits are reversed,
`odd_digits = digits[-1::-2]` are taken as they are, and every element of
`even_digits = digits[-2::-2]` is doubled and digit-summed. -/
def luhnChecksum (s : String) : Nat :=
  let digits := digits_of s
  let odd_digits := everyOther digits.reverse
  let even_digits := everyOther (digits.reverse.drop 1)
  odd_digits.sum + (even_digits.map (fun d => natDigitSum (d * 2))).sum

/-- Spec-worded Luhn sum, stated over the digit list taken from the
rightmost digit: the digit at even distance from the right is kept, the
digit at odd distance (every second digit counting from the rightmost) is
doubled and digit-summed.  Used to compare the source's slicing-based
computation against the specification's wording. -/
def luhnSpecSum : List Nat → Nat
  | [] => 0
  | [a] => a
  | a :: b :: t => a + natDigitSum (2 * b) + luhnSpecSum t

/-- The specification's Luhn total of a numeric string. -/
def luhnSpecTotal (s : String) : Nat := luhnSpecSum (digits_of s).reverse

/-- `ValidateParameters.validatecreditcard`: the regex `^[0-9]{16}` under
`fullmatch` accepts exactly the strings of 16 decimal digits; then the Luhn
checksum must be divisible by 10. -/
def validatecreditcard (credit_card : String) : Except String String :=
  if credit_card.length = 16 ∧ credit_card.data.all Char.isDigit then
    if luhnChecksum credit_card % 10 = 0 then .ok credit_card
    else .error "Invalid credit card number (not luhn)"
  else .error "Invalid credit card format"

/-! ## The remaining field validators of `ValidateParameters` -/

/-- `ValidateParameters.validate_room_type`: `fullmatch` of
`(SINGLE|DOUBLE|SUITE)`. -/
def validate_room_type (room_type : String) : Except String String :=
  if room_type = "SINGLE" ∨ room_type = "DOUBLE" ∨ room_type = "SUITE" then
    .ok room_type
  else .error "Invalid roomtype value"

/-- Shape accepted by the arrival-date regex
`^(([0-2]\d|-3[0-1])\/(0\d|1[0-2])\/\d\d\d\d)$`: the day part is either a
character in `[0-2]` followed by a digit, or a literal `-3` followed by `0`
or `1`; the month part is `0` plus a digit or `1` plus `[0-2]`; the year is
four digits. -/
def arrival_date_ok (cs : List Char) : Bool :=
  match cs with
  | [d1, d2, s1, m1, m2, s2, y1, y2, y3, y4] =>
      (d1 = '0' || d1 = '1' || d1 = '2') && d2.isDigit && s1 = '/' &&
      ((m1 = '0' && m2.isDigit) ||
        (m1 = '1' && (m2 = '0' || m2 = '1' || m2 = '2'))) &&
      s2 = '/' && y1.isDigit && y2.isDigit && y3.isDigit && y4.isDigit
  | [h, d1, d2, s1, m1, m2, s2, y1, y2, y3, y4] =>
      h = '-' && d1 = '3' && (d2 = '0' || d2 = '1') && s1 = '/' &&
      ((m1 = '0' && m2.isDigit) ||
        (m1 = '1' && (m2 = '0' || m2 = '1' || m2 = '2'))) &&
      s2 = '/' && y1.isDigit && y2.isDigit && y3.isDigit && y4.isDigit
  | _ => false

/-- `ValidateParameters.validate_arrival_date` (same regex as the
`ArrivalDate` attribute class). -/
def validate_arrival_date (arrival_date : String) : Except String String :=
  if arrival_date_ok arrival_date.data then .ok arrival_date
  else .error "Invalid date format"

/-- `ValidateParameters.validate_phonenumber`: `fullmatch` of
`^(\+)[0-9]{9}`, i.e. a plus sign followed by exactly nine digits. -/
def validate_phonenumber (phone_number : String) : Except String String :=
  match phone_number.data with
  | c :: rest =>
      if c = '+' ∧ rest.length = 9 ∧ rest.all Char.isDigit then
        .ok phone_number
      else .error "Invalid phone number format"
  | [] => .error "Invalid phone number format"

/-- `ValidateParameters.validate_numdays`: `int(num_days)` must parse and
lie in `[1, 10]`; the original (unconverted) argument is returned. -/
def validate_numdays (num_days : String) : Except String String :=
  match pyInt num_days with
  | none => .error "Invalid num_days datatype"
  | some days =>
      if days < 1 ∨ days > 10 then .error "Numdays should be in the range 1-10"
      else .ok num_days

/-- The fixed 23-entry check-letter table of `validate_dni`
(`dni_letter_dict`, keys `"0"` … `"22"` in order). -/
def dniLetterTable : List Char :=
  ['T', 'R', 'W', 'A', 'G', 'M', 'Y', 'F', 'P', 'D', 'X', 'B',
   'N', 'J', 'Z', 'S', 'Q', 'V', 'H', 'L', 'C', 'K', 'E']

/-- `ValidateParameters.validate_dni`: `int(dni[0:8]) % 23` indexes the
letter table, and the result is compared with `dni[8]`.  The source indexes
unconditionally (it is only called after the shape regex); the `getD`
defaults `'?'`/`'!'` are never letters, so an out-of-range index compares
unequal. -/
def validate_dni (dni : String) : Bool :=
  dni.data.getD 8 '?' = dniLetterTable.getD (digitsToNat (dni.data.take 8) % 23) '!'

/-- `ValidateParameters.validate_localizer`: `fullmatch` of
`^[a-fA-F0-9]{32}$`. -/
def validate_localizer (room_key : String) : Except String String :=
  if room_key.length = 32 ∧ room_key.data.all isHexChar then .ok room_key
  else .error "Invalid localizer"

/-- `GuestCheckout.validate_roomkey`: `fullmatch` of `^[a-fA-F0-9]{64}$`. -/
def validate_roomkey (room_key : String) : Except String String :=
  if room_key.length = 64 ∧ room_key.data.all isHexChar then .ok room_key
  else .error "Invalid room key format"

/-- Shape accepted by the id-card regex `^[0-9]{8}[A-Z]{1}$`. -/
def idCardShape (s : String) : Bool :=
  s.data.length = 9 && (s.data.take 8).all Char.isDigit &&
  (s.data.getD 8 '?').isUpper

/-- `HotelManager.check_id_card`: shape regex first, then the check-letter
test `validate_dni`; distinct messages for the two failures. -/
def check_id_card (id_card : String) : Except String Unit :=
  if ¬ idCardShape id_card then .error "Invalid IdCard format"
  else if ¬ validate_dni id_card then .error "Invalid IdCard letter"
  else .ok ()

/-- Shape accepted by the name regex
`^(?=^.{10,50}$)([a-zA-Z]+(\s[a-zA-Z]+)+)$`: total length between 10 and 50
(the lookahead), and the body is one or more ASCII-letter words separated by
single whitespace characters — equivalently, every character is a letter or
whitespace, the first and last characters are letters, no two whitespace
characters are adjacent, and at least one whitespace occurs. -/
def name_surname_ok (cs : List Char) : Bool :=
  10 ≤ cs.length && cs.length ≤ 50 &&
  (match cs with
   | [] => false
   | c :: _ => c.isAlpha) &&
  (match cs.getLast? with
   | some c => c.isAlpha
   | none => false) &&
  cs.all (fun c => c.isAlpha || isPySpace c) &&
  (cs.zip cs.tail).all (fun p => !(isPySpace p.1 && isPySpace p.2)) &&
  cs.any isPySpace

/-! ## Data model: records, derived identifiers, persisted state -/

/-- A persisted reservation record (the `__dict__` of a `HotelReservation`
as stored in `store_reservation.json`).  `num_days` is kept as the string
the caller supplied, matching `validate_numdays`, which validates the
parsed integer but stores the unconverted value. -/
structure HotelReservationRec where
  credit_card_number : String
  id_card : String
  name_surname : String
  phone_number : String
  room_type : String
  arrival : String
  num_days : String
  localizer : String
  reservation_date : Nat
deriving DecidableEq, Repr

/-- One mixing step of the modelled hash: absorb one character. -/
def mixChar (a : Nat) (c : Char) : Nat := (a * 257 + c.toNat + 1) % (2 ^ 128)

/-- Absorb one field of a record into the modelled hash state, with a
field-boundary step so adjacent fields do not run together. -/
def mixStr (a : Nat) (s : String) : Nat :=
  s.data.foldl mixChar ((a * 131 + 7) % (2 ^ 128))

/-- Render `n` as `k` lowercase hexadecimal digits (most significant
first). -/
def toHexChars : Nat → Nat → List Char
  | 0, _ => []
  | k + 1, n => toHexChars k (n / 16) ++
      [if n % 16 < 10 then Char.ofNat (48 + n % 16) else Char.ofNat (87 + n % 16)]

/-- Render `n` as a `k`-hex-digit string. -/
def toHexString (k n : Nat) : String := String.mk (toHexChars k n)

/-- Modelled from the spec: the localizer derivation of the
`HotelReservation` class, whose source is not under `src/`.  Per §3 and
§4.3 of the specification, the localizer is a pure function of the
reservation's content and its creation timestamp, rendered as 32
hexadecimal digits; the real code hashes the field dictionary with MD5.
The model replaces MD5 by an executable mixing hash with the same
signature and determinism. -/
def deriveLocalizer (id_card credit_card_number name_surname phone_number
    room_type arrival num_days : String) (reservation_date : Nat) : String :=
  let h := [id_card, credit_card_number, name_surname, phone_number,
            room_type, arrival, num_days].foldl mixStr 5381
  toHexString 32 ((h * 131 + reservation_date + 11) % (2 ^ 128))

/-- Modelled from the spec: construction of a `HotelReservation` (class not
under `src/`).  Per §4.4 step 2, the record carries
`reservationTimestamp = now` and a localizer derived from the content and
that timestamp. -/
def HotelReservation.make (credit_card_number id_card name_surname
    phone_number room_type arrival num_days : String) (now : Nat) :
    HotelReservationRec :=
  { credit_card_number := credit_card_number
    id_card := id_card
    name_surname := name_surname
    phone_number := phone_number
    room_type := room_type
    arrival := arrival
    num_days := num_days
    localizer := deriveLocalizer id_card credit_card_number name_surname
      phone_number room_type arrival num_days now
    reservation_date := now }

/-- A persisted stay record (the `__dict__` of a `HotelStay` as stored in
`store_check_in.json`). -/
structure HotelStayRec where
  id_card : String
  localizer : String
  num_days : Int
  room_type : String
  room_key : String
  departure : Nat
deriving DecidableEq, Repr

/-- Modelled from the spec: the room-key derivation of the `HotelStay`
class, whose source is not under `src/`.  Per §3, the room key is a pure
function of the stay's content, rendered as 64 hexadecimal digits, with a
seed distinct from the localizer derivation (domain separation, §9). -/
def deriveRoomKey (id_card localizer room_type : String) (num_days : Int) :
    String :=
  let h := [id_card, localizer, room_type, toString num_days].foldl mixStr 7919
  toHexString 64 (h % (2 ^ 256))

/-- Modelled from the spec: construction of a `HotelStay` (class not under
`src/`).  The departure instant is derived from the check-in instant plus
`numDays` days (§3: `departureDate` derived from the arrival plus
`numDays`). -/
def HotelStay.make (idcard : String) (numdays : Int) (localizer roomtype :
    String) (now : Nat) : HotelStayRec :=
  { id_card := idcard
    localizer := localizer
    num_days := numdays
    room_type := roomtype
    room_key := deriveRoomKey idcard localizer roomtype numdays
    departure := now + numdays.toNat * 86400 }

/-- A record of `store_check_out.json` (the plain dictionary written by
`GuestCheckout.checkout`). -/
structure CheckoutRec where
  room_key : String
  checkout_time : Nat
deriving DecidableEq, Repr

/-- The observable content of one JSON file: absent, present but not valid
JSON, or present with a parsed payload. -/
inductive FileData (α : Type) where
  | missing
  | malformed
  | valid (payload : α)
deriving DecidableEq, Repr

/-- The three persisted stores of the system
(`store_reservation.json`, `store_check_in.json`, `store_check_out.json`). -/
structure SystemState where
  reservations : FileData (List HotelReservationRec)
  checkins : FileData (List HotelStayRec)
  checkouts : FileData (List CheckoutRec)
deriving DecidableEq, Repr

/-- The payload of the guest-arrival input file: a JSON object with the
keys `Localizer` and `IdCard`. -/
structure GuestArrivalInput where
  Localizer : String
  IdCard : String
deriving DecidableEq, Repr

/-! ## Store access (`HotelManager`'s JSON helpers) -/

/-- `HotelManager.store_json_into_list`: a missing file raises the
caller-supplied message, malformed JSON raises the decode error, otherwise
the parsed payload is returned. -/
def store_json_into_list {α : Type} (fd : FileData α) (error_message : String) :
    Except String α :=
  match fd with
  | .missing => .error error_message
  | .malformed => .error "JSON Decode Error - Wrong JSON Format"
  | .valid payload => .ok payload

/-- `HotelManager.store_data_into_list_if_file_exists`: a missing file
yields the empty list, malformed JSON raises the decode error. -/
def store_data_into_list_if_file_exists {α : Type}
    (fd : FileData (List α)) : Except String (List α) :=
  match fd with
  | .missing => .ok []
  | .malformed => .error "JSON Decode Error - Wrong JSON Format"
  | .valid l => .ok l

/-! ## `HotelManager.room_reservation` -/

/-- The duplicate scan of `room_reservation`: the first store record whose
localizer equals the new reservation's localizer raises one message, a
record whose id card matches raises the other; per item the localizer is
compared first, as in the source loop. -/
def findDup (loc idc : String) : List HotelReservationRec → Option String
  | [] => none
  | item :: rest =>
      if loc = item.localizer then some "Reservation already exists"
      else if idc = item.id_card then some "This ID card has another reservation"
      else findDup loc idc rest

/-- `HotelManager.check_data`: name regex, then credit card, arrival date,
number of days and phone number, then the construction of the reservation
(timestamped `now`). -/
def check_data (arrival_date credit_card id_card name_surname num_days
    phone_number room_type : String) (now : Nat) :
    Except String HotelReservationRec :=
  if ¬ name_surname_ok name_surname.data then .error "Invalid name format"
  else
    match validatecreditcard credit_card with
    | .error e => .error e
    | .ok credit_card2 =>
      match validate_arrival_date arrival_date with
      | .error e => .error e
      | .ok arrival_date2 =>
        match validate_numdays num_days with
        | .error e => .error e
        | .ok num_days2 =>
          match validate_phonenumber phone_number with
          | .error e => .error e
          | .ok phone_number2 =>
            .ok (HotelReservation.make credit_card2 id_card name_surname
              phone_number2 room_type arrival_date2 num_days2 now)

/-- The in-memory part of `HotelManager.room_reservation`: all checks, the
load of the reservation store, the duplicate scan and the append; the pair
returned is the localizer and the list to be persisted. -/
def room_reservation_core (st : SystemState) (credit_card name_surname
    id_card phone_number room_type arrival_date num_days : String)
    (now : Nat) : Except String (String × List HotelReservationRec) :=
  match check_id_card id_card with
  | .error e => .error e
  | .ok _ =>
    match validate_room_type room_type with
    | .error e => .error e
    | .ok room_type2 =>
      match check_data arrival_date credit_card id_card name_surname
          num_days phone_number room_type2 now with
      | .error e => .error e
      | .ok my_reservation =>
        match store_data_into_list_if_file_exists st.reservations with
        | .error e => .error e
        | .ok data_list =>
          match findDup my_reservation.localizer my_reservation.id_card
              data_list with
          | some e => .error e
          | none => .ok (my_reservation.localizer, data_list ++ [my_reservation])

/-- `HotelManager.room_reservation`: on success the reservation store is
rewritten with the appended list and the localizer is returned; the single
write happens after every check (the source's only `write_into_json` call
is its last statement). -/
def room_reservation (st : SystemState) (credit_card name_surname id_card
    phone_number room_type arrival_date num_days : String) (now : Nat) :
    Except String String × SystemState :=
  match room_reservation_core st credit_card name_surname id_card
      phone_number room_type arrival_date num_days now with
  | .error e => (.error e, st)
  | .ok (loc, new_list) => (.ok loc, { st with reservations := .valid new_list })

/-! ## Calendar dates (`datetime` models) -/

/-- A calendar date as produced by Python `datetime.date`. -/
structure PyDate where
  year : Nat
  month : Nat
  day : Nat
deriving DecidableEq, Repr

/-- Gregorian leap-year rule. -/
def isLeap (y : Nat) : Bool := (y % 4 = 0 && y % 100 ≠ 0) || y % 400 = 0

/-- Number of days of a month. -/
def daysInMonth (m y : Nat) : Nat :=
  if m = 2 then (if isLeap y then 29 else 28)
  else if m = 4 ∨ m = 6 ∨ m = 9 ∨ m = 11 then 30
  else 31

/-- Split a character list at every occurrence of a separator character
(the splitting `strptime` effectively performs at the `/` literals of the
format `%d/%m/%Y`). -/
def splitOnChar (sep : Char) : List Char → List (List Char)
  | [] => [[]]
  | c :: t =>
      let r := splitOnChar sep t
      if c = sep then [] :: r
      else
        match r with
        | [] => [[c]]
        | h :: t2 => (c :: h) :: t2

/-- Model of `datetime.strptime(s, "%d/%m/%Y").date()`: three
slash-separated components, day and month of one or two digits, year of
four digits, with the day valid for the month (CPython's `strptime` raises
`ValueError` on an out-of-range day). -/
def strptimeDate (s : String) : Option PyDate :=
  match (splitOnChar '/' s.data).map String.mk with
  | [ds, ms, ys] =>
      if 1 ≤ ds.length ∧ ds.length ≤ 2 ∧ ds.data.all Char.isDigit ∧
         1 ≤ ms.length ∧ ms.length ≤ 2 ∧ ms.data.all Char.isDigit ∧
         ys.length = 4 ∧ ys.data.all Char.isDigit then
        let d := digitsToNat ds.data
        let m := digitsToNat ms.data
        let y := digitsToNat ys.data
        if 1 ≤ m ∧ m ≤ 12 ∧ 1 ≤ d ∧ d ≤ daysInMonth m y then
          some ⟨y, m, d⟩
        else none
      else none
  | _ => none

/-- Model of `datetime.fromtimestamp(ts).date()` (and of
`datetime.utcnow().date()` when `ts` is the current instant): the civil
date of a POSIX timestamp, via the standard days-from-epoch conversion.
The process timezone is taken to be UTC, so `fromtimestamp` and `utcnow`
agree on the calendar day. -/
def dateOfTimestamp (ts : Nat) : PyDate :=
  let z := ts / 86400 + 719468
  let era := z / 146097
  let doe := z % 146097
  let yoe := (doe - doe / 1460 + doe / 36524 - doe / 146096) / 365
  let y := yoe + era * 400
  let doy := doe - (365 * yoe + yoe / 4 - yoe / 100)
  let mp := (5 * doy + 2) / 153
  let d := doy - (153 * mp + 2) / 5 + 1
  let m := if mp < 10 then mp + 3 else mp - 9
  ⟨if m ≤ 2 then y + 1 else y, m, d⟩

/-! ## `HotelManager.guest_arrival` -/

/-- `HotelManager.get_and_validate_json`: reads `Localizer` and `IdCard`
from the parsed input and validates both. -/
def get_and_validate_json (input_list : GuestArrivalInput) :
    Except String (String × String) :=
  match check_id_card input_list.IdCard with
  | .error e => .error e
  | .ok _ =>
    match validate_localizer input_list.Localizer with
    | .error e => .error e
    | .ok _ => .ok (input_list.IdCard, input_list.Localizer)

/-- The store scan of `create_new_reservation`: the source loop walks the
whole list and keeps overwriting the bound fields on every match, so the
record that survives is the last matching one. -/
def findReservation (loc : String) (l : List HotelReservationRec) :
    Option HotelReservationRec :=
  l.foldl (fun acc item => if loc = item.localizer then some item else acc) none

/-- `HotelManager.generate_reservation`: rebuild the reservation under
`freeze_time` at the stored creation timestamp (so the rebuilt record's
localizer is derived with the stored instant, not the current one) and
compare localizers. -/
def generate_reservation (my_localizer reservation_credit_card
    reservation_date_arrival : String) (reservation_date_timestamp : Nat)
    (reservation_days reservation_id_card reservation_name reservation_phone
    reservation_room_type : String) : Except String Unit :=
  let new_reservation := HotelReservation.make reservation_credit_card
    reservation_id_card reservation_name reservation_phone
    reservation_room_type reservation_date_arrival reservation_days
    reservation_date_timestamp
  if new_reservation.localizer ≠ my_localizer then
    .error "Error: reservation has been manipulated"
  else .ok ()

/-- `HotelManager.create_new_reservation`: scan for the localizer, check
ownership, verify integrity, and hand back the stored arrival date, number
of days and room type. -/
def create_new_reservation (my_id_card my_localizer : String)
    (store_list : List HotelReservationRec) :
    Except String (String × String × String) :=
  match findReservation my_localizer store_list with
  | none => .error "Error: localizer not found"
  | some item =>
      if my_id_card ≠ item.id_card then
        .error "Error: Localizer is not correct for this IdCard"
      else
        match generate_reservation my_localizer item.credit_card_number
            item.arrival item.reservation_date item.num_days item.id_card
            item.name_surname item.phone_number item.room_type with
        | .error e => .error e
        | .ok _ => .ok (item.arrival, item.num_days, item.room_type)

/-- `HotelManager.check_equals_date`: parse the stored arrival date with
`%d/%m/%Y` and compare the calendar date with today's; an unparseable
string corresponds to an uncaught `ValueError` in the source, modelled as a
distinct error string. -/
def check_equals_date (reservation_date_arrival : String) (now : Nat) :
    Except String Unit :=
  match strptimeDate reservation_date_arrival with
  | none => .error "ValueError: time data does not match format"
  | some d =>
      if d ≠ dateOfTimestamp now then .error "Error: today is not reservation date"
      else .ok ()

/-- `HotelManager.save_checkin`: load the check-in store (missing file means
an empty list), refuse a duplicate room key, and return the appended list to
be persisted. -/
def save_checkin (checkins : FileData (List HotelStayRec))
    (my_checkin : HotelStayRec) : Except String (List HotelStayRec) :=
  match store_data_into_list_if_file_exists checkins with
  | .error e => .error e
  | .ok room_key_list =>
      if room_key_list.any (fun item => my_checkin.room_key = item.room_key) then
        .error "ckeckin  ya realizado"
      else .ok (room_key_list ++ [my_checkin])

/-- The in-memory part of `HotelManager.guest_arrival`: read and validate
the input file, load the reservation store (which must exist), find and
verify the reservation, gate on today's date, build the stay and run the
duplicate check of `save_checkin`; the pair returned is the room key and
the check-in list to be persisted.  `int(reservation_days)` failing to
parse is the source's uncaught `ValueError`. -/
def guest_arrival_core (st : SystemState)
    (file_input : FileData GuestArrivalInput) (now : Nat) :
    Except String (String × List HotelStayRec) :=
  match store_json_into_list file_input "Error: file input not found" with
  | .error e => .error e
  | .ok input_list =>
    match get_and_validate_json input_list with
    | .error e => .error e
    | .ok (my_id_card, my_localizer) =>
      match store_json_into_list st.reservations
          "Error: store reservation not found" with
      | .error e => .error e
      | .ok store_list =>
        match create_new_reservation my_id_card my_localizer store_list with
        | .error e => .error e
        | .ok (reservation_date_arrival, reservation_days,
               reservation_room_type) =>
          match check_equals_date reservation_date_arrival now with
          | .error e => .error e
          | .ok _ =>
            match pyInt reservation_days with
            | none => .error "ValueError: invalid literal for int"
            | some nd =>
              let my_checkin := HotelStay.make my_id_card nd my_localizer
                reservation_room_type now
              match save_checkin st.checkins my_checkin with
              | .error e => .error e
              | .ok new_list => .ok (my_checkin.room_key, new_list)

/-- `HotelManager.guest_arrival`: on success the check-in store is
rewritten with the appended list and the room key is returned; the single
write (inside `save_checkin`) happens after every check. -/
def guest_arrival (st : SystemState)
    (file_input : FileData GuestArrivalInput) (now : Nat) :
    Except String String × SystemState :=
  match guest_arrival_core st file_input now with
  | .error e => (.error e, st)
  | .ok (room_key, new_list) =>
      (.ok room_key, { st with checkins := .valid new_list })

/-! ## `GuestCheckout.checkout` / `HotelManager.guest_checkout` -/

/-- The check-in-store scan of `GuestCheckout.checkout`: the loop keeps
overwriting the departure timestamp on every match, so the last matching
record's departure survives. -/
def findStayDeparture (room_key : String) (l : List HotelStayRec) :
    Option Nat :=
  l.foldl (fun acc item => if room_key = item.room_key then some item.departure
    else acc) none

/-- The in-memory part of `GuestCheckout.checkout`: validate the room key,
load the check-in store (which must exist), find the stay, gate on the
departure day, load the checkout store (missing file means empty), refuse a
second checkout, and return the appended list to be persisted. -/
def checkout_core (st : SystemState) (room_key : String) (now : Nat) :
    Except String (List CheckoutRec) :=
  match validate_roomkey room_key with
  | .error e => .error e
  | .ok _ =>
    match store_json_into_list st.checkins "Error: store checkin not found" with
    | .error e => .error e
    | .ok room_key_list =>
      match findStayDeparture room_key room_key_list with
      | none => .error "Error: room key not found"
      | some departure_date_timestamp =>
        if dateOfTimestamp departure_date_timestamp ≠ dateOfTimestamp now then
          .error "Error: today is not the departure day"
        else
          match store_data_into_list_if_file_exists st.checkouts with
          | .error e => .error e
          | .ok checkout_list =>
            if checkout_list.any (fun c => c.room_key = room_key) then
              .error "Guest is already out"
            else .ok (checkout_list ++ [⟨room_key, now⟩])

/-- `HotelManager.guest_checkout` (delegating to `GuestCheckout.checkout`):
on success the checkout store is rewritten with the appended record and
`true` is returned; the single write happens after every check. -/
def guest_checkout (st : SystemState) (room_key : String) (now : Nat) :
    Except String Bool × SystemState :=
  match checkout_core st room_key now with
  | .error e => (.error e, st)
  | .ok new_list => (.ok true, { st with checkouts := .valid new_list })

/-! ## Sample data (concrete stores and requests used by the witnesses) -/

/-- A reservation created from valid fields on 2024-01-11 (timestamp
`1705000000`), with arrival date 20/01/2024. -/
def sampleReservation : HotelReservationRec :=
  HotelReservation.make "4111111111111111" "12345678Z" "Pedro Martinez"
    "+123456789" "SINGLE" "20/01/2024" "3" 1705000000

/-- The sample reservation's localizer. -/
def sampleLoc : String := sampleReservation.localizer

/-- The instant 2024-01-20 00:00:00 UTC (the sample arrival day). -/
def sampleNow : Nat := 1705708800

/-- A store holding exactly the sample reservation. -/
def sampleState : SystemState := ⟨.valid [sampleReservation], .missing, .missing⟩

/-- The sample reservation with `num_days` edited in place (localizer left
unchanged). -/
def sampleTampered : HotelReservationRec := { sampleReservation with num_days := "4" }

/-- A store holding the tampered record. -/
def sampleTamperedState : SystemState := ⟨.valid [sampleTampered], .missing, .missing⟩

/-- The guest-arrival input naming the sample reservation. -/
def sampleInput : GuestArrivalInput := ⟨sampleLoc, "12345678Z"⟩

/-- A system with no store files at all. -/
def emptyState : SystemState := ⟨.missing, .missing, .missing⟩

/-- A system whose reservation store exists but is empty. -/
def emptyResState : SystemState := ⟨.valid [], .missing, .missing⟩

/-- The stay created by the sample check-in on the arrival day. -/
def sampleStay : HotelStayRec :=
  HotelStay.make "12345678Z" 3 sampleLoc "SINGLE" sampleNow

/-- A system whose check-in store holds the sample stay. -/
def sampleCheckinState : SystemState := ⟨.missing, .valid [sampleStay], .missing⟩

/-- A system whose check-in store exists but is empty. -/
def emptyCheckinState : SystemState := ⟨.missing, .valid [], .missing⟩

/-! ## Proof development -/

set_option maxRecDepth 40000

/-- Unfolding step for `everyOther` with a single `cons`. -/
theorem everyOther_cons (x : Nat) (xs : List Nat) :
    everyOther (x :: xs) = x :: everyOther (xs.drop 1) := by
  cases xs <;> simp [everyOther]

/-- The slicing-based checksum of the source equals the specification's
alternating sum, over any digit list (stated on the reversed list both
computations start from). -/
theorem luhn_bridge (l : List Nat) :
    (everyOther l).sum +
      ((everyOther (l.drop 1)).map (fun d => natDigitSum (d * 2))).sum =
    luhnSpecSum l := by
  induction l using luhnSpecSum.induct with
  | case1 => simp [everyOther, luhnSpecSum]
  | case2 a => simp [everyOther, luhnSpecSum]
  | case3 a b t ih =>
      simp only [luhnSpecSum, everyOther, List.drop_succ_cons, List.drop_zero,
        everyOther_cons, List.map_cons, List.sum_cons]
      rw [show 2 * b = b * 2 from Nat.mul_comm 2 b]
      omega

/-- The checksum of `validatecreditcard` is the specification's Luhn
total. -/
theorem luhnChecksum_eq_spec (s : String) :
    luhnChecksum s = luhnSpecTotal s := by
  simp only [luhnChecksum, luhnSpecTotal]
  exact luhn_bridge _

/-- C2: `validatecreditcard` rejects any string that is not exactly 16
decimal digits with the format error; on a 16-digit string it returns the
string unchanged exactly when the Luhn weighted sum (double every second
digit counting from the rightmost, digit-sum the doubled values, add all
digits) is divisible by 10, and otherwise raises the distinct checksum
error. -/
theorem validatecreditcard_luhn_spec :
    (∀ s : String, ¬ (s.length = 16 ∧ s.data.all Char.isDigit) →
      validatecreditcard s = .error "Invalid credit card format") ∧
    (∀ s : String, s.length = 16 → s.data.all Char.isDigit →
      ((validatecreditcard s = .ok s ↔ luhnSpecTotal s % 10 = 0) ∧
       (luhnSpecTotal s % 10 ≠ 0 →
         validatecreditcard s = .error "Invalid credit card number (not luhn)"))) := by
  constructor
  · intro s h
    rw [validatecreditcard, if_neg h]
  · intro s h1 h2
    rw [validatecreditcard, if_pos ⟨h1, h2⟩, luhnChecksum_eq_spec]
    by_cases hl : luhnSpecTotal s % 10 = 0
    · rw [if_pos hl]
      exact ⟨by simp [hl], fun hc => absurd hl hc⟩
    · rw [if_neg hl]
      exact ⟨by simp [hl], fun _ => rfl⟩

/-- Witness for C2 at concrete inputs: a Luhn-valid 16-digit string is
accepted unchanged, a Luhn-invalid one gets the checksum error, and a
non-16-digit string gets the format error. -/
theorem validatecreditcard_luhn_spec_witness :
    validatecreditcard "4111111111111111" = .ok "4111111111111111" ∧
    validatecreditcard "4111111111111112" =
      .error "Invalid credit card number (not luhn)" ∧
    validatecreditcard "41x" = .error "Invalid credit card format" :=
  ⟨(validatecreditcard_luhn_spec.2 "4111111111111111" (by decide) (by decide)).1.mpr
      (by decide),
   (validatecreditcard_luhn_spec.2 "4111111111111112" (by decide) (by decide)).2
      (by decide),
   validatecreditcard_luhn_spec.1 "41x" (by decide)⟩

/-- C3: `check_id_card` rejects any string that is not eight decimal digits
followed by an uppercase letter with the shape error; on a string of that
shape it succeeds exactly when the ninth character equals the entry of the
23-letter table at index `numericPart mod 23`, and otherwise raises the
distinct check-letter error. -/
theorem check_id_card_table_spec :
    (∀ s : String, idCardShape s = false →
      check_id_card s = .error "Invalid IdCard format") ∧
    (∀ s : String, idCardShape s = true →
      ((check_id_card s = .ok () ↔
        s.data.getD 8 '?' =
          dniLetterTable.getD (digitsToNat (s.data.take 8) % 23) '!') ∧
       (s.data.getD 8 '?' ≠
          dniLetterTable.getD (digitsToNat (s.data.take 8) % 23) '!' →
        check_id_card s = .error "Invalid IdCard letter"))) := by
  constructor
  · intro s h
    rw [check_id_card, if_pos (by simp [h])]
  · intro s h
    rw [check_id_card, if_neg (by simp [h])]
    by_cases hl : validate_dni s = true
    · rw [if_neg (by simp [hl])]
      rw [validate_dni, decide_eq_true_eq] at hl
      exact ⟨⟨fun _ => hl, fun _ => rfl⟩, fun hc => absurd hl hc⟩
    · rw [if_pos (by simp [hl])]
      rw [validate_dni, decide_eq_true_eq] at hl
      exact ⟨⟨fun h' => absurd h' (by simp), fun hp => absurd hp hl⟩,
        fun _ => rfl⟩

/-- Witness for C3 at concrete inputs: `12345678 mod 23 = 14` selects `Z`,
so `12345678Z` is accepted, `12345678A` gets the check-letter error, and
`1234567Z` gets the shape error. -/
theorem check_id_card_table_spec_witness :
    check_id_card "12345678Z" = .ok () ∧
    check_id_card "12345678A" = .error "Invalid IdCard letter" ∧
    check_id_card "1234567Z" = .error "Invalid IdCard format" :=
  ⟨(check_id_card_table_spec.2 "12345678Z" (by decide)).1.mpr (by decide),
   (check_id_card_table_spec.2 "12345678A" (by decide)).2 (by decide),
   check_id_card_table_spec.1 "1234567Z" (by decide)⟩

/-- C10: every field validator is the identity on accepted inputs —
`validatecreditcard`, `validate_room_type`, `validate_arrival_date`,
`validate_phonenumber`, `validate_localizer` and `validate_numdays` return
their argument unchanged whenever they do not raise; in particular
`validate_numdays` returns the original unconverted string (e.g. `"3"`),
not the parsed integer. -/
theorem validators_identity :
    (∀ s t : String, validatecreditcard s = .ok t → t = s) ∧
    (∀ s t : String, validate_room_type s = .ok t → t = s) ∧
    (∀ s t : String, validate_arrival_date s = .ok t → t = s) ∧
    (∀ s t : String, validate_phonenumber s = .ok t → t = s) ∧
    (∀ s t : String, validate_localizer s = .ok t → t = s) ∧
    (∀ s t : String, validate_numdays s = .ok t → t = s) ∧
    validate_numdays "3" = .ok "3" := by
  refine ⟨?_, ?_, ?_, ?_, ?_, ?_, by decide⟩
  · intro s t h
    rw [validatecreditcard] at h
    split_ifs at h <;> simp_all
  · intro s t h
    rw [validate_room_type] at h
    split_ifs at h <;> simp_all
  · intro s t h
    rw [validate_arrival_date] at h
    split_ifs at h <;> simp_all
  · intro s t h
    rw [validate_phonenumber] at h
    split at h
    · split_ifs at h <;> simp_all
    · simp_all
  · intro s t h
    rw [validate_localizer] at h
    split_ifs at h <;> simp_all
  · intro s t h
    rw [validate_numdays] at h
    split at h
    · simp_all
    · split_ifs at h <;> simp_all

/-- Witness for C10 at concrete accepted inputs (each validator applied
where its hypothesis holds). -/
theorem validators_identity_witness :
    ("4111111111111111" : String) = "4111111111111111" ∧
    ("SINGLE" : String) = "SINGLE" ∧
    ("20/01/2024" : String) = "20/01/2024" ∧
    ("+123456789" : String) = "+123456789" ∧
    ("00000000000000000000000000000000" : String) =
      "00000000000000000000000000000000" ∧
    ("3" : String) = "3" :=
  ⟨validators_identity.1 "4111111111111111" "4111111111111111" (by decide),
   validators_identity.2.1 "SINGLE" "SINGLE" (by decide),
   validators_identity.2.2.1 "20/01/2024" "20/01/2024" (by decide),
   validators_identity.2.2.2.1 "+123456789" "+123456789" (by decide),
   validators_identity.2.2.2.2.1 "00000000000000000000000000000000"
     "00000000000000000000000000000000" (by decide),
   validators_identity.2.2.2.2.2.1 "3" "3" (by decide)⟩

/-- C8 counterexample: the claim says day `30` is accepted for every month
and year (e.g. `30/01/2024`), but the regex alternative for days 30 and 31
is `-3[0-1]`, with a literal hyphen, so `30/01/2024` is rejected with the
format error. -/
theorem validate_arrival_date_day30_counterexample :
    validate_arrival_date "30/01/2024" = .error "Invalid date format" := by
  decide

/-- C8 as amended: `validate_arrival_date` accepts the ten-character
strings whose day token is a character in `0`–`2` followed by a digit
(days 00–29) and the eleven-character strings whose day token is the
literal `-30` or `-31`, in both cases followed by `/`, a month `00`–`12`,
`/` and four year digits; a day token `3x` without the hyphen is always
rejected, so `30/01/2024` fails with the format error while `-30/01/2024`
is accepted. -/
theorem validate_arrival_date_amended_spec :
    (∀ d1 d2 m1 m2 y1 y2 y3 y4 : Char,
      (d1 = '0' ∨ d1 = '1' ∨ d1 = '2') → d2.isDigit →
      ((m1 = '0' ∧ m2.isDigit) ∨
        (m1 = '1' ∧ (m2 = '0' ∨ m2 = '1' ∨ m2 = '2'))) →
      y1.isDigit → y2.isDigit → y3.isDigit → y4.isDigit →
      validate_arrival_date
          (String.mk [d1, d2, '/', m1, m2, '/', y1, y2, y3, y4]) =
        .ok (String.mk [d1, d2, '/', m1, m2, '/', y1, y2, y3, y4])) ∧
    (∀ d3 m1 m2 y1 y2 y3 y4 : Char,
      (d3 = '0' ∨ d3 = '1') →
      ((m1 = '0' ∧ m2.isDigit) ∨
        (m1 = '1' ∧ (m2 = '0' ∨ m2 = '1' ∨ m2 = '2'))) →
      y1.isDigit → y2.isDigit → y3.isDigit → y4.isDigit →
      validate_arrival_date
          (String.mk ['-', '3', d3, '/', m1, m2, '/', y1, y2, y3, y4]) =
        .ok (String.mk ['-', '3', d3, '/', m1, m2, '/', y1, y2, y3, y4])) ∧
    (∀ d2 m1 m2 y1 y2 y3 y4 : Char,
      validate_arrival_date
          (String.mk ['3', d2, '/', m1, m2, '/', y1, y2, y3, y4]) =
        .error "Invalid date format") ∧
    validate_arrival_date "30/01/2024" = .error "Invalid date format" ∧
    validate_arrival_date "-30/01/2024" = .ok "-30/01/2024" := by
  refine ⟨?_, ?_, ?_, by decide, by decide⟩
  · intro d1 d2 m1 m2 y1 y2 y3 y4 h1 h2 h3 h4 h5 h6 h7
    rcases h3 with ⟨hm1, hm2⟩ | ⟨hm1, hm2⟩ <;>
      rcases h1 with h1 | h1 | h1 <;>
        simp_all [validate_arrival_date, arrival_date_ok] <;> tauto
  · intro d3 m1 m2 y1 y2 y3 y4 h1 h3 h4 h5 h6 h7
    rcases h3 with ⟨hm1, hm2⟩ | ⟨hm1, hm2⟩ <;>
      rcases h1 with h1 | h1 <;>
        simp_all [validate_arrival_date, arrival_date_ok] <;> tauto
  · intro d2 m1 m2 y1 y2 y3 y4
    simp [validate_arrival_date, arrival_date_ok]

/-- Witness for the amended C8 at concrete inputs: day 29 is accepted, and
a `-31` day token is accepted. -/
theorem validate_arrival_date_amended_spec_witness :
    validate_arrival_date "29/01/2024" = .ok "29/01/2024" ∧
    validate_arrival_date "-31/12/2024" = .ok "-31/12/2024" :=
  ⟨validate_arrival_date_amended_spec.1 '2' '9' '0' '1' '2' '0' '2' '4'
      (by decide) (by decide) (by decide) (by decide) (by decide) (by decide)
      (by decide),
   validate_arrival_date_amended_spec.2.1 '1' '1' '2' '2' '0' '2' '4'
      (by decide) (by decide) (by decide) (by decide) (by decide) (by decide)⟩

/-- `Option.or` absorption: a second alternative that is `some` swallows
any third. -/
theorem or_some_absorb {α : Type} (x : Option α) (a : α) (acc : Option α) :
    (x.or (some a)).or acc = x.or (some a) := by
  cases x <;> rfl

/-- `Option.or` with `none` on the right is the identity. -/
theorem or_none_id {α : Type} (x : Option α) : x.or none = x := by
  cases x <;> rfl

/-- The forward fold of `create_new_reservation`'s loop keeps the last
match: with any accumulator it equals the first match of the reversed
list, defaulting to the accumulator. -/
theorem findReservation_foldl (loc : String) (l : List HotelReservationRec)
    (acc : Option HotelReservationRec) :
    l.foldl (fun acc item => if loc = item.localizer then some item else acc)
        acc =
      (l.reverse.find? (fun item => loc == item.localizer)).or acc := by
  induction l generalizing acc with
  | nil => simp
  | cons a t ih =>
      simp only [List.foldl_cons, List.reverse_cons, List.find?_append, ih]
      by_cases h : loc = a.localizer
      · rw [if_pos h, List.find?_cons_of_pos _ (by simp [h]), or_some_absorb]
      · rw [if_neg h, List.find?_cons_of_neg _ (by simp [h]), List.find?_nil,
          or_none_id]

/-- `Option.map` distributes over `Option.or`. -/
theorem map_or_distrib {α β : Type} (x y : Option α) (f : α → β) :
    (x.or y).map f = (x.map f).or (y.map f) := by
  cases x <;> rfl

/-- The forward fold of `GuestCheckout.checkout`'s loop keeps the last
match's departure timestamp. -/
theorem findStayDeparture_foldl (rk : String) (l : List HotelStayRec)
    (acc : Option Nat) :
    l.foldl (fun acc item => if rk = item.room_key then some item.departure
        else acc) acc =
      ((l.reverse.find? (fun item => rk == item.room_key)).map
        (fun item => item.departure)).or acc := by
  induction l generalizing acc with
  | nil => simp
  | cons a t ih =>
      simp only [List.foldl_cons, List.reverse_cons, List.find?_append, ih]
      by_cases h : rk = a.room_key
      · rw [if_pos h, List.find?_cons_of_pos _ (by simp [h]), map_or_distrib]
        simp only [Option.map_some']
        rw [or_some_absorb]
      · rw [if_neg h, List.find?_cons_of_neg _ (by simp [h]), List.find?_nil,
          map_or_distrib]
        simp only [Option.map_none']
        rw [or_none_id]

/-- The reservation lookup is exactly "last match wins". -/
theorem findReservation_eq_last (loc : String) (l : List HotelReservationRec) :
    findReservation loc l =
      l.reverse.find? (fun item => loc == item.localizer) := by
  rw [findReservation, findReservation_foldl, or_none_id]

/-- The stay lookup is exactly "last match wins" on the departure field. -/
theorem findStayDeparture_eq_last (rk : String) (l : List HotelStayRec) :
    findStayDeparture rk l =
      (l.reverse.find? (fun item => rk == item.room_key)).map
        (fun item => item.departure) := by
  rw [findStayDeparture, findStayDeparture_foldl, or_none_id]

/-- The duplicate scan of `room_reservation` returns no error exactly when
no stored record shares the localizer or the id card. -/
theorem findDup_eq_none_iff (loc idc : String) (l : List HotelReservationRec) :
    findDup loc idc l = none ↔
      ∀ item ∈ l, loc ≠ item.localizer ∧ idc ≠ item.id_card := by
  induction l with
  | nil => simp [findDup]
  | cons a t ih =>
      rw [findDup]
      by_cases h1 : loc = a.localizer
      · simp [h1]
      · by_cases h2 : idc = a.id_card
        · simp [h1, h2]
        · simp [h1, h2, ih]

/-- The duplicate scan only ever produces the two duplicate messages. -/
theorem findDup_mem_msgs (loc idc : String) (l : List HotelReservationRec)
    (e : String) :
    findDup loc idc l = some e →
      e = "Reservation already exists" ∨
      e = "This ID card has another reservation" := by
  induction l with
  | nil => simp [findDup]
  | cons a t ih =>
      rw [findDup]
      by_cases h1 : loc = a.localizer
      · simp only [if_pos h1, Option.some.injEq]
        rintro rfl
        left
        rfl
      · by_cases h2 : idc = a.id_card
        · simp only [if_neg h1, if_pos h2, Option.some.injEq]
          rintro rfl
          right
          rfl
        · simp only [if_neg h1, if_neg h2]
          exact ih

/-- C7: both store lookups are "last match wins" — `guest_arrival` uses the
last reservation record with the given localizer (the source loop keeps
overwriting its bindings on every match) and `guest_checkout` uses the
departure timestamp of the last stay record with the given room key; a
lookup with no match fails with the corresponding not-found error. -/
theorem lookup_last_match_spec :
    (∀ (loc : String) (l : List HotelReservationRec),
      findReservation loc l =
        l.reverse.find? (fun item => loc == item.localizer)) ∧
    (∀ (rk : String) (l : List HotelStayRec),
      findStayDeparture rk l =
        (l.reverse.find? (fun item => rk == item.room_key)).map
          (fun item => item.departure)) ∧
    (∀ (st : SystemState) (l : List HotelReservationRec) (idc loc : String)
        (now : Nat),
      st.reservations = .valid l →
      check_id_card idc = .ok () →
      validate_localizer loc = .ok loc →
      findReservation loc l = none →
      guest_arrival st (.valid ⟨loc, idc⟩) now =
        (.error "Error: localizer not found", st)) ∧
    (∀ (st : SystemState) (l : List HotelStayRec) (rk : String) (now : Nat),
      st.checkins = .valid l →
      validate_roomkey rk = .ok rk →
      findStayDeparture rk l = none →
      guest_checkout st rk now = (.error "Error: room key not found", st)) := by
  refine ⟨findReservation_eq_last, findStayDeparture_eq_last, ?_, ?_⟩
  · intro st l idc loc now hst hid hloc hfind
    simp [guest_arrival, guest_arrival_core, get_and_validate_json,
      create_new_reservation, store_json_into_list, hst, hid, hloc, hfind]
  · intro st l rk now hst hv hfind
    simp [guest_checkout, checkout_core, store_json_into_list, hst, hv, hfind]

/-- Witness for C7 at concrete inputs: an arrival against an empty
reservation store and a checkout against an empty check-in store both miss
their lookup. -/
theorem lookup_last_match_spec_witness :
    guest_arrival emptyResState (.valid sampleInput) sampleNow =
      (.error "Error: localizer not found", emptyResState) ∧
    guest_checkout emptyCheckinState sampleStay.room_key sampleNow =
      (.error "Error: room key not found", emptyCheckinState) :=
  ⟨lookup_last_match_spec.2.2.1 emptyResState [] "12345678Z" sampleLoc
      sampleNow rfl (by decide) (by decide) rfl,
   lookup_last_match_spec.2.2.2 emptyCheckinState [] sampleStay.room_key
      sampleNow rfl (by decide) rfl⟩

/-- C5: for a validated reservation request, `room_reservation` fails and
leaves the store untouched when any stored record (the scan covers the
whole store, checked-in or not) shares the new localizer or id card,
raising one of the two duplicate messages; otherwise it appends exactly the
one new record and returns its localizer — so uniqueness of localizers and
id cards over the stored list is preserved by every call. -/
theorem room_reservation_unique_spec :
    ∀ (st : SystemState) (l : List HotelReservationRec)
      (cc ns idc ph rt ad nd : String) (now : Nat) (r : HotelReservationRec),
      st.reservations = .valid l →
      check_id_card idc = .ok () →
      validate_room_type rt = .ok rt →
      check_data ad cc idc ns nd ph rt now = .ok r →
      (((∀ item ∈ l, r.localizer ≠ item.localizer ∧ r.id_card ≠ item.id_card) →
          room_reservation st cc ns idc ph rt ad nd now =
            (.ok r.localizer, { st with reservations := .valid (l ++ [r]) })) ∧
       ((∃ item ∈ l, r.localizer = item.localizer ∨ r.id_card = item.id_card) →
          ∃ e, (e = "Reservation already exists" ∨
                e = "This ID card has another reservation") ∧
            room_reservation st cc ns idc ph rt ad nd now = (.error e, st)) ∧
       (∀ l', (l.map (fun x => x.localizer)).Nodup ∧
              (l.map (fun x => x.id_card)).Nodup →
          (room_reservation st cc ns idc ph rt ad nd now).2.reservations =
            .valid l' →
          (l'.map (fun x => x.localizer)).Nodup ∧
          (l'.map (fun x => x.id_card)).Nodup)) := by
  intro st l cc ns idc ph rt ad nd now r hst hid hrt hcd
  have hcore : room_reservation_core st cc ns idc ph rt ad nd now =
      match findDup r.localizer r.id_card l with
      | some e => .error e
      | none => .ok (r.localizer, l ++ [r]) := by
    simp [room_reservation_core, hid, hrt, hcd, hst,
      store_data_into_list_if_file_exists]
  refine ⟨?_, ?_, ?_⟩
  · intro hall
    have hfd : findDup r.localizer r.id_card l = none :=
      (findDup_eq_none_iff _ _ _).mpr hall
    simp only [room_reservation, hcore, hfd]
  · intro hex
    rcases hfd : findDup r.localizer r.id_card l with _ | e
    · exfalso
      have hall := (findDup_eq_none_iff _ _ _).mp hfd
      rcases hex with ⟨item, hmem, hor⟩
      rcases hall item hmem with ⟨hl1, hl2⟩
      rcases hor with h | h
      · exact hl1 h
      · exact hl2 h
    · exact ⟨e, findDup_mem_msgs _ _ _ _ hfd, by
        simp only [room_reservation, hcore, hfd]⟩
  · intro l' hnd hres
    rcases hfd : findDup r.localizer r.id_card l with _ | e
    · have hall := (findDup_eq_none_iff _ _ _).mp hfd
      simp only [room_reservation, hcore, hfd] at hres
      have hl' : l' = l ++ [r] := by
        cases hres
        rfl
      subst hl'
      constructor
      · rw [List.map_append]
        rw [List.nodup_append]
        refine ⟨hnd.1, List.nodup_singleton _, ?_⟩
        intro a ha hb
        simp only [List.map_cons, List.map_nil, List.mem_singleton] at hb
        rcases List.mem_map.mp ha with ⟨item, hmem, hcontra⟩
        exact (hall item hmem).1 (by rw [hcontra, hb])
      · rw [List.map_append]
        rw [List.nodup_append]
        refine ⟨hnd.2, List.nodup_singleton _, ?_⟩
        intro a ha hb
        simp only [List.map_cons, List.map_nil, List.mem_singleton] at hb
        rcases List.mem_map.mp ha with ⟨item, hmem, hcontra⟩
        exact (hall item hmem).2 (by rw [hcontra, hb])
    · simp only [room_reservation, hcore, hfd] at hres
      rw [hst] at hres
      cases hres
      exact hnd

/-- Witness for C5 at concrete inputs: reserving against the empty store
appends the sample reservation and returns its localizer; repeating the
same request against the store that already holds it fails with a
duplicate message and leaves the state unchanged. -/
theorem room_reservation_unique_spec_witness :
    room_reservation emptyResState "4111111111111111" "Pedro Martinez"
        "12345678Z" "+123456789" "SINGLE" "20/01/2024" "3" 1705000000 =
      (.ok sampleReservation.localizer,
        { emptyResState with reservations := .valid ([] ++ [sampleReservation]) }) ∧
    (∃ e, (e = "Reservation already exists" ∨
           e = "This ID card has another reservation") ∧
      room_reservation sampleState "4111111111111111" "Pedro Martinez"
          "12345678Z" "+123456789" "SINGLE" "20/01/2024" "3" 1705000000 =
        (.error e, sampleState)) :=
  ⟨(room_reservation_unique_spec emptyResState [] "4111111111111111"
      "Pedro Martinez" "12345678Z" "+123456789" "SINGLE" "20/01/2024" "3"
      1705000000 sampleReservation rfl (by decide) (by decide) (by decide)).1
      (by simp),
   (room_reservation_unique_spec sampleState [sampleReservation]
      "4111111111111111" "Pedro Martinez" "12345678Z" "+123456789" "SINGLE"
      "20/01/2024" "3" 1705000000 sampleReservation rfl (by decide)
      (by decide) (by decide)).2.1
      ⟨sampleReservation, by simp, Or.inl rfl⟩⟩

/-- C6: whenever any of the three operations raises an error, the returned
system state is exactly the input state — no store is rewritten on a
failing path (each operation's only write comes after all of its checks). -/
theorem no_partial_writes_spec :
    (∀ (st : SystemState) (cc ns idc ph rt ad nd : String) (now : Nat)
        (e : String) (st' : SystemState),
      room_reservation st cc ns idc ph rt ad nd now = (.error e, st') →
      st' = st) ∧
    (∀ (st : SystemState) (fi : FileData GuestArrivalInput) (now : Nat)
        (e : String) (st' : SystemState),
      guest_arrival st fi now = (.error e, st') → st' = st) ∧
    (∀ (st : SystemState) (rk : String) (now : Nat) (e : String)
        (st' : SystemState),
      guest_checkout st rk now = (.error e, st') → st' = st) := by
  refine ⟨?_, ?_, ?_⟩
  · intro st cc ns idc ph rt ad nd now e st' h
    rcases hcore : room_reservation_core st cc ns idc ph rt ad nd now with e2 | p
    · simp only [room_reservation, hcore] at h
      simp only [Prod.mk.injEq] at h
      exact h.2.symm
    · obtain ⟨loc, nl⟩ := p
      simp only [room_reservation, hcore] at h
      simp at h
  · intro st fi now e st' h
    rcases hcore : guest_arrival_core st fi now with e2 | p
    · simp only [guest_arrival, hcore] at h
      simp only [Prod.mk.injEq] at h
      exact h.2.symm
    · obtain ⟨rk, nl⟩ := p
      simp only [guest_arrival, hcore] at h
      simp at h
  · intro st rk now e st' h
    rcases hcore : checkout_core st rk now with e2 | nl
    · simp only [guest_checkout, hcore] at h
      simp only [Prod.mk.injEq] at h
      exact h.2.symm
    · simp only [guest_checkout, hcore] at h
      simp at h

/-- Witness for C6 at concrete failing calls of each operation (an invalid
id card, a missing input file, an invalid room key): the state comes back
unchanged. -/
theorem no_partial_writes_spec_witness :
    emptyState = emptyState ∧ emptyState = emptyState ∧
    emptyState = emptyState :=
  ⟨no_partial_writes_spec.1 emptyState "" "" "" "" "" "" "" 0
      "Invalid IdCard format" emptyState (by decide),
   no_partial_writes_spec.2.1 emptyState .missing 0
      "Error: file input not found" emptyState (by decide),
   no_partial_writes_spec.2.2 emptyState "" 0 "Invalid room key format"
      emptyState (by decide)⟩

/-- Evaluation of `guest_arrival` once the input is valid, the store holds
`l`, the lookup hits `item` and the ownership check passes: what remains is
the integrity comparison against the localizer recomputed at the *stored*
timestamp, then the date gate, then the check-in append. -/
theorem guest_arrival_eval (st : SystemState) (l : List HotelReservationRec)
    (item : HotelReservationRec) (idc loc : String) (now : Nat)
    (hst : st.reservations = .valid l)
    (hid : check_id_card idc = .ok ())
    (hloc : validate_localizer loc = .ok loc)
    (hfind : findReservation loc l = some item)
    (hown : item.id_card = idc) :
    guest_arrival st (.valid ⟨loc, idc⟩) now =
      if deriveLocalizer item.id_card item.credit_card_number
          item.name_surname item.phone_number item.room_type item.arrival
          item.num_days item.reservation_date ≠ loc then
        (.error "Error: reservation has been manipulated", st)
      else
        match check_equals_date item.arrival now with
        | .error e => (.error e, st)
        | .ok _ =>
          match pyInt item.num_days with
          | none => (.error "ValueError: invalid literal for int", st)
          | some nd =>
            match save_checkin st.checkins
                (HotelStay.make idc nd loc item.room_type now) with
            | .error e => (.error e, st)
            | .ok nl =>
              (.ok (HotelStay.make idc nd loc item.room_type now).room_key,
                { st with checkins := .valid nl }) := by
  have hgen : generate_reservation loc item.credit_card_number item.arrival
      item.reservation_date item.num_days item.id_card item.name_surname
      item.phone_number item.room_type =
      (if deriveLocalizer item.id_card item.credit_card_number
          item.name_surname item.phone_number item.room_type item.arrival
          item.num_days item.reservation_date ≠ loc then
        Except.error "Error: reservation has been manipulated"
      else Except.ok ()) := rfl
  by_cases hd : deriveLocalizer item.id_card item.credit_card_number
      item.name_surname item.phone_number item.room_type item.arrival
      item.num_days item.reservation_date = loc
  · have hcnr : create_new_reservation idc loc l =
        Except.ok (item.arrival, item.num_days, item.room_type) := by
      simp only [create_new_reservation, hfind]
      rw [if_neg (by rw [hown]; exact fun hcon => hcon rfl), hgen,
        if_neg (by simp [hd])]
    rw [if_neg (by simp [hd])]
    simp only [guest_arrival, guest_arrival_core, store_json_into_list,
      get_and_validate_json, hid, hloc, hst, hcnr]
    rcases hce : check_equals_date item.arrival now with e | u
    · simp [hce]
    · rcases hpy : pyInt item.num_days with _ | nd
      · simp [hce, hpy]
      · rcases hsc : save_checkin st.checkins
            (HotelStay.make idc nd loc item.room_type now) with e | nl
        · simp [hce, hpy, hsc]
        · simp [hce, hpy, hsc]
  · have hcnr : create_new_reservation idc loc l =
        Except.error "Error: reservation has been manipulated" := by
      simp only [create_new_reservation, hfind]
      rw [if_neg (by rw [hown]; exact fun hcon => hcon rfl), hgen,
        if_pos (by simp [hd])]
    rw [if_pos (by simp [hd])]
    simp only [guest_arrival, guest_arrival_core, store_json_into_list,
      get_and_validate_json, hid, hloc, hst, hcnr]


/-- Evaluation of `GuestCheckout.checkout`'s in-memory part once the room
key is valid, the check-in store holds `l` and the lookup hits the
departure `dep`: what remains is the calendar-day gate, the checkout-store
load and the duplicate check. -/
theorem checkout_core_eval (st : SystemState) (l : List HotelStayRec)
    (dep : Nat) (rk : String) (now : Nat)
    (hv : validate_roomkey rk = .ok rk)
    (hst : st.checkins = .valid l)
    (hfind : findStayDeparture rk l = some dep) :
    checkout_core st rk now =
      (if dateOfTimestamp dep ≠ dateOfTimestamp now then
         .error "Error: today is not the departure day"
       else
         match store_data_into_list_if_file_exists st.checkouts with
         | .error e => .error e
         | .ok checkout_list =>
           if checkout_list.any (fun c => c.room_key = rk) then
             .error "Guest is already out"
           else .ok (checkout_list ++ [⟨rk, now⟩])) := by
  simp only [checkout_core, hv, store_json_into_list, hst, hfind]

/-- A found stay whose departure falls on a different calendar day than
`now` makes `guest_checkout` fail with the date-mismatch error and leaves
the state unchanged. -/
theorem guest_checkout_date_mismatch (st : SystemState)
    (l : List HotelStayRec) (dep : Nat) (rk : String) (now : Nat)
    (hv : validate_roomkey rk = .ok rk)
    (hst : st.checkins = .valid l)
    (hfind : findStayDeparture rk l = some dep)
    (hd : dateOfTimestamp dep ≠ dateOfTimestamp now) :
    guest_checkout st rk now =
      (.error "Error: today is not the departure day", st) := by
  have h3 := checkout_core_eval st l dep rk now hv hst hfind
  rw [if_pos hd] at h3
  simp only [guest_checkout, h3]

/-- A found stay whose departure falls on today's calendar day never
produces the date-mismatch error (whatever the checkout store holds). -/
theorem guest_checkout_date_match (st : SystemState) (l : List HotelStayRec)
    (dep : Nat) (rk : String) (now : Nat)
    (hv : validate_roomkey rk = .ok rk)
    (hst : st.checkins = .valid l)
    (hfind : findStayDeparture rk l = some dep)
    (hd : dateOfTimestamp dep = dateOfTimestamp now) :
    (guest_checkout st rk now).1 ≠
      .error "Error: today is not the departure day" := by
  have h3 := checkout_core_eval st l dep rk now hv hst hfind
  rw [if_neg (fun hcon => hcon hd)] at h3
  rcases hsc : st.checkouts with _ | _ | cl
  · rw [hsc] at h3
    simp only [store_data_into_list_if_file_exists] at h3
    simp only [List.any_nil, if_false, Bool.false_eq_true] at h3
    simp only [guest_checkout, h3]
    simp
  · rw [hsc] at h3
    simp only [store_data_into_list_if_file_exists] at h3
    simp only [guest_checkout, h3]
    simp
  · rw [hsc] at h3
    simp only [store_data_into_list_if_file_exists] at h3
    by_cases hdup : cl.any (fun c => c.room_key = rk)
    · simp only [hdup, if_true] at h3
      simp only [guest_checkout, h3]
      simp
    · simp only [hdup, if_false, Bool.false_eq_true] at h3
      simp only [guest_checkout, h3]
      simp

/-- The only error the tolerant store load can raise is the JSON decode
error. -/
theorem store_data_error {α : Type} (fd : FileData (List α)) (e : String) :
    store_data_into_list_if_file_exists fd = .error e →
    e = "JSON Decode Error - Wrong JSON Format" := by
  rcases fd with _ | _ | l <;>
    simp [store_data_into_list_if_file_exists] <;>
      exact fun h => h.symm

/-- The only errors `save_checkin` can raise are the decode error of its
store load and the duplicate-check-in message. -/
theorem save_checkin_error (ck : FileData (List HotelStayRec))
    (chk : HotelStayRec) (e : String) :
    save_checkin ck chk = .error e →
    e = "JSON Decode Error - Wrong JSON Format" ∨
    e = "ckeckin  ya realizado" := by
  intro h
  rcases hq : store_data_into_list_if_file_exists ck with e2 | cl
  · simp only [save_checkin, hq] at h
    cases h
    exact Or.inl (store_data_error ck e hq)
  · simp only [save_checkin, hq] at h
    by_cases hdup : cl.any (fun item => chk.room_key = item.room_key)
    · simp only [hdup, if_true] at h
      cases h
      exact Or.inr rfl
    · simp only [hdup, if_false, Bool.false_eq_true] at h
      cases h

/-- The only errors `check_equals_date` can raise are the parse failure and
the date-mismatch message. -/
theorem check_equals_date_error (s : String) (now : Nat) (e : String) :
    check_equals_date s now = .error e →
    e = "ValueError: time data does not match format" ∨
    e = "Error: today is not reservation date" := by
  intro h
  rcases hp : strptimeDate s with _ | d
  · simp only [check_equals_date, hp] at h
    cases h
    exact Or.inl rfl
  · simp only [check_equals_date, hp] at h
    by_cases hd : d = dateOfTimestamp now
    · rw [if_neg (fun hcon => hcon hd)] at h
      cases h
    · rw [if_pos hd] at h
      cases h
      exact Or.inr rfl

/-- Once the recomputed localizer matches, no later step of `guest_arrival`
can produce the tamper message. -/
theorem guest_arrival_no_tamper (st : SystemState)
    (l : List HotelReservationRec) (item : HotelReservationRec)
    (idc loc : String) (now : Nat)
    (hst : st.reservations = .valid l)
    (hid : check_id_card idc = .ok ())
    (hloc : validate_localizer loc = .ok loc)
    (hfind : findReservation loc l = some item)
    (hown : item.id_card = idc)
    (hd : deriveLocalizer item.id_card item.credit_card_number
        item.name_surname item.phone_number item.room_type item.arrival
        item.num_days item.reservation_date = loc) :
    (guest_arrival st (.valid ⟨loc, idc⟩) now).1 ≠
      .error "Error: reservation has been manipulated" := by
  intro h
  rw [guest_arrival_eval st l item idc loc now hst hid hloc hfind hown,
    if_neg (fun hcon => hcon hd)] at h
  rcases hce : check_equals_date item.arrival now with e | u
  · simp only [hce] at h
    have h2 : e = "Error: reservation has been manipulated" :=
      Except.error.inj h
    rcases check_equals_date_error _ _ _ hce with he | he <;>
      rw [he] at h2 <;> exact absurd h2 (by decide)
  · simp only [hce] at h
    rcases hpy : pyInt item.num_days with _ | nd
    · simp only [hpy] at h
      have h2 : ("ValueError: invalid literal for int" : String) =
          "Error: reservation has been manipulated" := Except.error.inj h
      exact absurd h2 (by decide)
    · simp only [hpy] at h
      rcases hsc : save_checkin st.checkins
          (HotelStay.make idc nd loc item.room_type now) with e | nl
      · simp only [hsc] at h
        have h2 : e = "Error: reservation has been manipulated" :=
          Except.error.inj h
        rcases save_checkin_error _ _ _ hsc with he | he <;>
          rw [he] at h2 <;> exact absurd h2 (by decide)
      · simp only [hsc] at h
        exact Except.noConfusion h

/-- Once the integrity check passes and the stored arrival date parses to
today's calendar date, no later step of `guest_arrival` can produce the
date-mismatch message. -/
theorem guest_arrival_no_date_error (st : SystemState)
    (l : List HotelReservationRec) (item : HotelReservationRec)
    (idc loc : String) (now : Nat) (d : PyDate)
    (hst : st.reservations = .valid l)
    (hid : check_id_card idc = .ok ())
    (hloc : validate_localizer loc = .ok loc)
    (hfind : findReservation loc l = some item)
    (hown : item.id_card = idc)
    (hd : deriveLocalizer item.id_card item.credit_card_number
        item.name_surname item.phone_number item.room_type item.arrival
        item.num_days item.reservation_date = loc)
    (hdate : strptimeDate item.arrival = some d)
    (hdd : d = dateOfTimestamp now) :
    (guest_arrival st (.valid ⟨loc, idc⟩) now).1 ≠
      .error "Error: today is not reservation date" := by
  intro h
  rw [guest_arrival_eval st l item idc loc now hst hid hloc hfind hown,
    if_neg (fun hcon => hcon hd)] at h
  have hce : check_equals_date item.arrival now = .ok () := by
    simp only [check_equals_date, hdate]
    rw [if_neg (fun hcon => hcon hdd)]
  simp only [hce] at h
  rcases hpy : pyInt item.num_days with _ | nd
  · simp only [hpy] at h
    have h2 : ("ValueError: invalid literal for int" : String) =
        "Error: today is not reservation date" := Except.error.inj h
    exact absurd h2 (by decide)
  · simp only [hpy] at h
    rcases hsc : save_checkin st.checkins
        (HotelStay.make idc nd loc item.room_type now) with e | nl
    · simp only [hsc] at h
      have h2 : e = "Error: today is not reservation date" :=
        Except.error.inj h
      rcases save_checkin_error _ _ _ hsc with he | he <;>
        rw [he] at h2 <;> exact absurd h2 (by decide)
    · simp only [hsc] at h
      exact Except.noConfusion h

/-- C1: for a found, owned reservation record, `guest_arrival` raises the
tamper error exactly when the localizer recomputed by re-running the
reservation construction over the stored fields at the stored creation
timestamp (`freeze_time`) differs from the stored localizer — for every
current instant `now`, so the recomputation never depends on the current
time; concretely, the sample store passes the check while the same store
with `num_days` changed from `"3"` to `"4"` (localizer untouched) makes
`guest_arrival` fail with the tamper error. -/
theorem tamper_detection_spec :
    (∀ (st : SystemState) (l : List HotelReservationRec)
        (item : HotelReservationRec) (idc loc : String) (now : Nat),
      st.reservations = .valid l →
      check_id_card idc = .ok () →
      validate_localizer loc = .ok loc →
      findReservation loc l = some item →
      item.id_card = idc →
      ((guest_arrival st (.valid ⟨loc, idc⟩) now).1 =
          .error "Error: reservation has been manipulated" ↔
        deriveLocalizer item.id_card item.credit_card_number
          item.name_surname item.phone_number item.room_type item.arrival
          item.num_days item.reservation_date ≠ loc)) ∧
    (guest_arrival sampleState (.valid sampleInput) sampleNow).1 =
      .ok sampleStay.room_key ∧
    (guest_arrival sampleTamperedState (.valid sampleInput) sampleNow).1 =
      .error "Error: reservation has been manipulated" := by
  refine ⟨?_, by decide, by decide⟩
  intro st l item idc loc now hst hid hloc hfind hown
  by_cases hd : deriveLocalizer item.id_card item.credit_card_number
      item.name_surname item.phone_number item.room_type item.arrival
      item.num_days item.reservation_date = loc
  · constructor
    · intro h
      exact absurd h
        (guest_arrival_no_tamper st l item idc loc now hst hid hloc hfind
          hown hd)
    · intro hcon
      exact absurd hd hcon
  · constructor
    · intro _
      exact hd
    · intro _
      rw [guest_arrival_eval st l item idc loc now hst hid hloc hfind hown,
        if_pos hd]

/-- Witness for C1's quantified part at the sample store: the recomputed
localizer matches, so `guest_arrival` does not raise the tamper error
there. -/
theorem tamper_detection_spec_witness :
    (guest_arrival sampleState (.valid ⟨sampleLoc, "12345678Z"⟩)
        sampleNow).1 ≠
      .error "Error: reservation has been manipulated" :=
  fun h =>
    ((tamper_detection_spec.1 sampleState [sampleReservation]
        sampleReservation "12345678Z" sampleLoc sampleNow rfl (by decide)
        (by decide) (by decide) (by decide)).mp h) (by decide)

/-- C4: both date gates compare calendar dates, not timestamps — for a
found, owned, integrity-verified reservation whose stored `arrival` parses
to the calendar date `d`, `guest_arrival` raises the date-mismatch error
exactly when `d` differs from the calendar date of the current instant;
and for a found stay, `guest_checkout` raises its date-mismatch error
exactly when the calendar date of the stored departure timestamp differs
from today's. -/
theorem date_gate_spec :
    (∀ (st : SystemState) (l : List HotelReservationRec)
        (item : HotelReservationRec) (idc loc : String) (now : Nat)
        (d : PyDate),
      st.reservations = .valid l →
      check_id_card idc = .ok () →
      validate_localizer loc = .ok loc →
      findReservation loc l = some item →
      item.id_card = idc →
      deriveLocalizer item.id_card item.credit_card_number
          item.name_surname item.phone_number item.room_type item.arrival
          item.num_days item.reservation_date = loc →
      strptimeDate item.arrival = some d →
      ((guest_arrival st (.valid ⟨loc, idc⟩) now).1 =
          .error "Error: today is not reservation date" ↔
        d ≠ dateOfTimestamp now)) ∧
    (∀ (st : SystemState) (l : List HotelStayRec) (dep : Nat) (rk : String)
        (now : Nat),
      validate_roomkey rk = .ok rk →
      st.checkins = .valid l →
      findStayDeparture rk l = some dep →
      ((guest_checkout st rk now).1 =
          .error "Error: today is not the departure day" ↔
        dateOfTimestamp dep ≠ dateOfTimestamp now)) := by
  constructor
  · intro st l item idc loc now d hst hid hloc hfind hown hder hdate
    constructor
    · intro h
      by_cases hdd : d = dateOfTimestamp now
      · exact absurd h
          (guest_arrival_no_date_error st l item idc loc now d hst hid hloc
            hfind hown hder hdate hdd)
      · exact hdd
    · intro hdd
      have hce : check_equals_date item.arrival now =
          .error "Error: today is not reservation date" := by
        simp only [check_equals_date, hdate]
        rw [if_pos hdd]
      rw [guest_arrival_eval st l item idc loc now hst hid hloc hfind hown,
        if_neg (fun hcon => hcon hder)]
      simp only [hce]
  · intro st l dep rk now hv hst hfind
    constructor
    · intro h
      by_cases hdd : dateOfTimestamp dep = dateOfTimestamp now
      · exact absurd h
          (guest_checkout_date_match st l dep rk now hv hst hfind hdd)
      · exact hdd
    · intro hdd
      rw [guest_checkout_date_mismatch st l dep rk now hv hst hfind hdd]

/-- Witness for C4 at concrete inputs: arriving on 2024-01-11 against the
sample reservation (arrival date 20/01/2024) raises the arrival
date-mismatch error, and checking out on 2024-01-20 a stay departing
2024-01-23 raises the departure date-mismatch error. -/
theorem date_gate_spec_witness :
    (guest_arrival sampleState (.valid ⟨sampleLoc, "12345678Z"⟩)
        1705000000).1 = .error "Error: today is not reservation date" ∧
    (guest_checkout sampleCheckinState sampleStay.room_key sampleNow).1 =
      .error "Error: today is not the departure day" :=
  ⟨(date_gate_spec.1 sampleState [sampleReservation] sampleReservation
      "12345678Z" sampleLoc 1705000000 ⟨2024, 1, 20⟩ rfl (by decide)
      (by decide) (by decide) (by decide) (by decide) (by decide)).mpr
      (by decide),
   (date_gate_spec.2 sampleCheckinState [sampleStay] sampleStay.departure
      sampleStay.room_key sampleNow (by decide) rfl (by decide)).mpr
      (by decide)⟩

/-- C9 counterexample: absence of a store file is *not* uniformly treated
as an empty sequence — `guest_arrival` with no reservation store fails with
the storage-level message `Error: store reservation not found`, while the
same call against an existing empty store fails with the lookup-miss
message `Error: localizer not found`; `guest_checkout` behaves analogously
for the check-in store. -/
theorem store_absence_counterexample :
    (guest_arrival emptyState (.valid sampleInput) sampleNow).1 =
      .error "Error: store reservation not found" ∧
    (guest_arrival emptyResState (.valid sampleInput) sampleNow).1 =
      .error "Error: localizer not found" ∧
    ("Error: store reservation not found" : String) ≠
      "Error: localizer not found" ∧
    (guest_checkout emptyState sampleStay.room_key sampleNow).1 =
      .error "Error: store checkin not found" ∧
    (guest_checkout emptyCheckinState sampleStay.room_key sampleNow).1 =
      .error "Error: room key not found" := by
  refine ⟨by decide, by decide, by decide, by decide, by decide⟩

/-- C9 as amended: the *tolerant* loads (the reservation store in
`room_reservation`, the check-in store in `save_checkin`, the checkout
store in `checkout`) treat a missing file as the empty sequence, so those
operations behave identically on a missing and on an empty store; but
`guest_arrival` requires the reservation store to exist (missing file:
`Error: store reservation not found`) and `guest_checkout` requires the
check-in store to exist (missing file: `Error: store checkin not found`);
a malformed store file is the fatal decode error for every operation. -/
theorem store_absence_amended_spec :
    (∀ (α : Type) (msg : String),
      store_json_into_list (FileData.missing : FileData α) msg =
        .error msg) ∧
    (∀ (α : Type) (msg : String),
      store_json_into_list (FileData.malformed : FileData α) msg =
        .error "JSON Decode Error - Wrong JSON Format") ∧
    (∀ (α : Type),
      store_data_into_list_if_file_exists
        (FileData.missing : FileData (List α)) = .ok []) ∧
    (∀ (α : Type),
      store_data_into_list_if_file_exists
        (FileData.malformed : FileData (List α)) =
        .error "JSON Decode Error - Wrong JSON Format") ∧
    (∀ (st : SystemState) (cc ns idc ph rt ad nd : String) (now : Nat),
      (room_reservation { st with reservations := .missing }
          cc ns idc ph rt ad nd now).1 =
      (room_reservation { st with reservations := .valid [] }
          cc ns idc ph rt ad nd now).1) ∧
    (∀ (st : SystemState) (fi : FileData GuestArrivalInput) (now : Nat),
      (guest_arrival { st with checkins := .missing } fi now).1 =
      (guest_arrival { st with checkins := .valid [] } fi now).1) ∧
    (∀ (st : SystemState) (rk : String) (now : Nat),
      (guest_checkout { st with checkouts := .missing } rk now).1 =
      (guest_checkout { st with checkouts := .valid [] } rk now).1) ∧
    (∀ (st : SystemState) (idc loc : String) (now : Nat),
      st.reservations = .missing →
      check_id_card idc = .ok () →
      validate_localizer loc = .ok loc →
      guest_arrival st (.valid ⟨loc, idc⟩) now =
        (.error "Error: store reservation not found", st)) ∧
    (∀ (st : SystemState) (rk : String) (now : Nat),
      st.checkins = .missing →
      validate_roomkey rk = .ok rk →
      guest_checkout st rk now =
        (.error "Error: store checkin not found", st)) ∧
    (room_reservation (⟨.malformed, .missing, .missing⟩ : SystemState)
        "4111111111111111" "Pedro Martinez" "12345678Z" "+123456789"
        "SINGLE" "20/01/2024" "3" 1705000000).1 =
      .error "JSON Decode Error - Wrong JSON Format" ∧
    (guest_arrival (⟨.malformed, .missing, .missing⟩ : SystemState)
        (.valid sampleInput) sampleNow).1 =
      .error "JSON Decode Error - Wrong JSON Format" ∧
    (guest_checkout (⟨.missing, .malformed, .missing⟩ : SystemState)
        sampleStay.room_key sampleNow).1 =
      .error "JSON Decode Error - Wrong JSON Format" := by
  refine ⟨fun α msg => rfl, fun α msg => rfl, fun α => rfl, fun α => rfl,
    ?_, ?_, ?_, ?_, ?_, by decide, by decide, by decide⟩
  · intro st cc ns idc ph rt ad nd now
    have hc : room_reservation_core { st with reservations := .missing }
        cc ns idc ph rt ad nd now =
        room_reservation_core { st with reservations := .valid [] }
        cc ns idc ph rt ad nd now := rfl
    rcases hcore : room_reservation_core
        { st with reservations := .valid [] } cc ns idc ph rt ad nd now
      with e | p
    · simp only [room_reservation, hc, hcore]
    · obtain ⟨loc, nl⟩ := p
      simp only [room_reservation, hc, hcore]
  · intro st fi now
    have hc : guest_arrival_core { st with checkins := .missing } fi now =
        guest_arrival_core { st with checkins := .valid [] } fi now := rfl
    rcases hcore : guest_arrival_core { st with checkins := .valid [] }
        fi now with e | p
    · simp only [guest_arrival, hc, hcore]
    · obtain ⟨rk, nl⟩ := p
      simp only [guest_arrival, hc, hcore]
  · intro st rk now
    have hc : checkout_core { st with checkouts := .missing } rk now =
        checkout_core { st with checkouts := .valid [] } rk now := rfl
    rcases hcore : checkout_core { st with checkouts := .valid [] } rk now
      with e | nl
    · simp only [guest_checkout, hc, hcore]
    · simp only [guest_checkout, hc, hcore]
  · intro st idc loc now hst hid hloc
    simp [guest_arrival, guest_arrival_core, store_json_into_list,
      get_and_validate_json, hst, hid, hloc]
  · intro st rk now hst hv
    simp [guest_checkout, checkout_core, store_json_into_list, hst, hv]

/-- Witness for the amended C9 at concrete inputs: the
missing-versus-empty equivalences and the two existence requirements,
instantiated. -/
theorem store_absence_amended_spec_witness :
    (room_reservation (⟨.missing, .missing, .missing⟩ : SystemState)
        "4111111111111111" "Pedro Martinez" "12345678Z" "+123456789"
        "SINGLE" "20/01/2024" "3" 1705000000).1 =
      (room_reservation (⟨.valid [], .missing, .missing⟩ : SystemState)
        "4111111111111111" "Pedro Martinez" "12345678Z" "+123456789"
        "SINGLE" "20/01/2024" "3" 1705000000).1 ∧
    guest_arrival emptyState (.valid sampleInput) sampleNow =
      (.error "Error: store reservation not found", emptyState) ∧
    guest_checkout emptyState sampleStay.room_key sampleNow =
      (.error "Error: store checkin not found", emptyState) :=
  ⟨store_absence_amended_spec.2.2.2.2.1
      (⟨.missing, .missing, .missing⟩ : SystemState) "4111111111111111"
      "Pedro Martinez" "12345678Z" "+123456789" "SINGLE" "20/01/2024" "3"
      1705000000,
   store_absence_amended_spec.2.2.2.2.2.2.2.1 emptyState "12345678Z"
      sampleLoc sampleNow rfl (by decide) (by decide),
   store_absence_amended_spec.2.2.2.2.2.2.2.2.1 emptyState
      sampleStay.room_key sampleNow rfl (by decide)⟩
